import Mathlib

/-!
Verification of the ollamago HTTP client (client.go, api.go, types.go).

The streaming core is shallowly embedded: the HTTP transport is abstracted as the
`HttpResponse` the server returned, `encoding/json` calls are abstracted as decode
oracles passed in as function arguments, and the cooperative cancellation context is
a schedule saying from which check onward `ctx.Done()` is ready.  Channels are
modelled by the list of events the goroutine sends on the response channel together
with the single value (if any) it sends on the error channel before both channels
are closed; `Body.Close()` calls are counted.
-/

namespace Ollamago

/-! ### Go string primitives (byte strings modelled as character lists; all inputs
under study are ASCII, so bytes and characters coincide) -/

/-- Go `strings.HasPrefix s p`. -/
def strHasPre (s p : String) : Bool := p.data.isPrefixOf s.data

/-- Contiguous-sublist test on character lists, used to model Go `strings.Contains`. -/
def listHasSub : List Char → List Char → Bool
  | p, [] => p.isEmpty
  | p, c :: t => p.isPrefixOf (c :: t) || listHasSub p t

/-- Go `strings.Contains s p`. -/
def strContains (s p : String) : Bool := listHasSub p.data s.data

/-- Go slicing `s[n:]`. -/
def strDropN (s : String) (n : Nat) : String := ⟨s.data.drop n⟩

/-- Go `strings.TrimSuffix s "/"`: removes one trailing slash when present. -/
def trimOneSlash (s : String) : String :=
  if s.data.getLast? = some '/' then ⟨s.data.dropLast⟩ else s

/-- True when the string ends in two consecutive slashes. -/
def endsTwoSlash (s : String) : Bool :=
  (s.data.getLast? == some '/') && (s.data.dropLast.getLast? == some '/')

/-! ### Host resolution (client.go, `parseHost`) -/

/-- The part of a parsed `net/url.URL` that `parseHost` consults: `u.Scheme` and
`u.Port()`.  The other components are never read by `parseHost`. -/
structure GoURL where
  scheme : String
  port : String
deriving Repr, DecidableEq

/-- Model of `net/url.Parse` restricted to what `parseHost` consults, on inputs of
the shape `scheme://authority[/path...]` (no userinfo, no IPv6 brackets): the
authority runs to the first `/`; if it contains a `:` then everything after the
last `:` must be digits and is the port (otherwise `Parse` reports an invalid
port, modelled as `none`); with no `:` the port is empty. -/
def urlParse (s : String) : Option GoURL :=
  let sr :=
    if strHasPre s "http://" then ("http", s.data.drop 7)
    else if strHasPre s "https://" then ("https", s.data.drop 8)
    else ("", s.data)
  let auth := sr.2.takeWhile (fun c => c ≠ '/')
  if auth.contains ':' then
    let portRev := auth.reverse.takeWhile (fun c => c ≠ ':')
    if portRev.all Char.isDigit then some ⟨sr.1, ⟨portRev.reverse⟩⟩ else none
  else some ⟨sr.1, ""⟩

/-- The default base URL `parseHost` falls back to. -/
def defaultHost : String := "http://127.0.0.1:11434"

/-- Scheme prefixing step of `parseHost` (client.go lines 209-212): a host missing
both scheme prefixes gets `http://` prepended. -/
def withScheme (host : String) : String :=
  if !strHasPre host "http://" && !strHasPre host "https://" then "http://" ++ host
  else host

/-- Port-defaulting and slash-trimming steps of `parseHost` (client.go lines
214-232), applied to the scheme-prefixed host: a parse failure falls back to the
default; a missing port gets `:443` (https) or `:11434` (http, only when the text
after the scheme prefix contains no colon) appended; finally `TrimSuffix` removes
one trailing slash. -/
def parseHostStep (host1 : String) : String :=
  match urlParse host1 with
  | none => defaultHost
  | some u =>
    trimOneSlash
      (if u.port = "" then
        if u.scheme = "https" then host1 ++ ":443"
        else if u.scheme = "http" then
          if !strContains (strDropN host1 7) ":" then host1 ++ ":11434" else host1
        else host1
      else host1)

/-- Model of `parseHost` (client.go lines 204-233): empty host falls back to the
default, otherwise the scheme-prefixing, port-defaulting and slash-trimming steps
run in order. -/
def parseHost (host : String) : String :=
  if host = "" then defaultHost else parseHostStep (withScheme host)

/-! ### Responses, errors and the two request helpers (client.go) -/

/-- The decoded wire record of `/api/generate` (types.go `GenerateResponse`).  Only
`Response` and `Done` can influence the client's control flow and delivery; the
remaining fields (model, timings, context) are opaque payload and are omitted. -/
structure GenerateResponse where
  response : String
  done : Bool
deriving Repr, DecidableEq

/-- The decoded wire record of `/api/chat` (types.go `ChatResponse`), reduced to the
fields that influence the client (`Message.Content` as payload, `Done`). -/
structure ChatResponse where
  content : String
  done : Bool
deriving Repr, DecidableEq

/-- The Go `error` values this client can produce on the paths under study. -/
inductive StreamError where
  /-- `&RequestError⦃Message: "model is required"⦄` (validation, before any I/O). -/
  | requestError (message : String)
  /-- `&ResponseError⦃StatusCode, Message⦄` (typed error for a non-success status). -/
  | responseError (statusCode : Nat) (message : String)
  /-- `fmt.Errorf("unexpected content type: %s", ...)` — an untyped error. -/
  | contentTypeError (contentType : String)
  /-- `ctx.Err()` observed at a cooperative cancellation check. -/
  | ctxError
  /-- `fmt.Errorf("failed to decode response: %w", ...)` in GenerateStream. -/
  | decodeError (line : String)
  /-- `fmt.Errorf("decode error: %w", ...)` in ChatStream. -/
  | chatDecodeError
  /-- `fmt.Errorf("decoding response: %w", ...)` in `request`. -/
  | responseDecodeError
deriving Repr, DecidableEq

/-- Discriminator: is this error a typed `*ResponseError`? -/
def StreamError.isRespErr : StreamError → Bool
  | .responseError _ _ => true
  | _ => false

/-- Discriminator lifted to the optional error a call returns. -/
def optIsRespErr : Option StreamError → Bool
  | some e => e.isRespErr
  | none => false

/-- The HTTP response the transport handed back: status, `Content-Type` header and
the full body bytes. -/
structure HttpResponse where
  statusCode : Nat
  contentType : String
  body : String
deriving Repr, DecidableEq

/-- Outcome of `requestStream`: the error it returns (`none` = the caller may
stream), and how many times it closed `resp.Body` itself. -/
structure StreamSetup where
  result : Option StreamError
  closes : Nat
deriving Repr, DecidableEq

/-- Model of `Client.request` (client.go lines 81-140), from `resp := httpClient.Do`
onward (marshalling and transport are abstracted; the deferred `resp.Body.Close()`
always runs, so close accounting is not modelled here).  `parseErr` models
`json.Unmarshal` of the error body into `struct ⦃ Error string ⦄`: `some e` means it
succeeded with `Error` field `e`, `none` that it failed.  `decodeOk` models whether
`json.NewDecoder(resp.Body).Decode(response)` succeeds, `hasResponse` whether
`response != nil`.  Returns the `error` value `request` returns. -/
def request (parseErr : String → Option String) (decodeOk : Bool) (hasResponse : Bool)
    (resp : HttpResponse) : Option StreamError :=
  if resp.statusCode ≠ 200 then
    match parseErr resp.body with
    | some e =>
      if e ≠ "" then some (.responseError resp.statusCode e)
      else some (.responseError resp.statusCode resp.body)
    | none => some (.responseError resp.statusCode resp.body)
  else if !hasResponse then none
  else if decodeOk then none
  else some .responseDecodeError

/-- Model of `Client.requestStream` (client.go lines 143-201), from
`resp := httpClient.Do` onward.  On a non-200 status the body is read, closed, and
the message extracted exactly as in `request`.  On a 200 status the `Content-Type`
header must contain `application/json` or `application/x-ndjson`; note that on the
offending-content-type path the source returns without closing `resp.Body`. -/
def requestStream (parseErr : String → Option String) (resp : HttpResponse) :
    StreamSetup :=
  if resp.statusCode ≠ 200 then
    match parseErr resp.body with
    | some e =>
      if e ≠ "" then ⟨some (.responseError resp.statusCode e), 1⟩
      else ⟨some (.responseError resp.statusCode resp.body), 1⟩
    | none => ⟨some (.responseError resp.statusCode resp.body), 1⟩
  else if !strContains resp.contentType "application/json"
       && !strContains resp.contentType "application/x-ndjson" then
    ⟨some (.contentTypeError resp.contentType), 0⟩
  else ⟨none, 0⟩

/-! ### The streaming goroutines (api.go) -/

/-- Helper for `scanLines`: split a character stream at newlines, accumulating the
current line reversed. -/
def splitLinesAux : List Char → List Char → List String
  | [], acc => [⟨acc.reverse⟩]
  | c :: rest, acc =>
    if c = '\n' then (⟨acc.reverse⟩ : String) :: splitLinesAux rest []
    else splitLinesAux rest (c :: acc)

/-- The token sequence `bufio.Scanner` produces on a fully available body: the
newline-separated segments, except that a trailing newline yields no final empty
token (and an empty body yields no token). -/
def scanLines (s : String) : List String :=
  let l := splitLinesAux s.data []
  if l.getLast? = some "" then l.dropLast else l

/-- Cooperative cancellation schedule: `ctx.Done()` is ready from check number `k`
onward when `cancelFrom = some k`, and never ready when `cancelFrom = none`.
Checks are numbered in the order the goroutine performs them. -/
def ctxDone (cancelFrom : Option Nat) (check : Nat) : Bool :=
  match cancelFrom with
  | none => false
  | some k => decide (k ≤ check)

/-- The scanner loop of `GenerateStream` (api.go lines 49-82).  `decode` models
`json.Unmarshal` of one line into a `GenerateResponse` (`none` = failure).  Each
iteration first runs the `select` on `ctx.Done()` (one check), skips an empty
line, decodes, then runs the publish `select` (one more check); a published event
with `Done` set ends the loop.  Returns the events published on `responseChan` and
the value sent on `errChan` (`none` = nothing sent; `scanner.Err()` is `nil` for a
fully available body). -/
def genLoop (decode : String → Option GenerateResponse) (cancelFrom : Option Nat) :
    List String → Nat → List GenerateResponse × Option StreamError
  | [], _ => ([], none)
  | line :: rest, checks =>
    if ctxDone cancelFrom checks then ([], some .ctxError)
    else if line = "" then genLoop decode cancelFrom rest (checks + 1)
    else
      match decode line with
      | none => ([], some (.decodeError line))
      | some r =>
        if ctxDone cancelFrom (checks + 1) then ([], some .ctxError)
        else if r.done then ([r], none)
        else
          let p := genLoop decode cancelFrom rest (checks + 2)
          (r :: p.1, p.2)

/-- Result of one streaming goroutine: the events published on the response
channel, the value sent on the error channel (`none` = none, i.e. success), and
how many times `resp.Body.Close()` ran in total.  Both channels are closed by the
deferred `close` calls when the goroutine returns. -/
structure SessionResult (ρ : Type) where
  events : List ρ
  err : Option StreamError
  closes : Nat
deriving Repr, DecidableEq

/-- Model of the goroutine of `Client.GenerateStream` (api.go lines 28-86):
validate the model name, call `requestStream`, defer one `resp.Body.Close()`, and
run the scanner loop over the body's lines. -/
def generateStreamRun (parseErr : String → Option String)
    (decode : String → Option GenerateResponse) (cancelFrom : Option Nat)
    (model : String) (resp : HttpResponse) : SessionResult GenerateResponse :=
  if model = "" then ⟨[], some (.requestError "model is required"), 0⟩
  else
    let setup := requestStream parseErr resp
    match setup.result with
    | some e => ⟨[], some e, setup.closes⟩
    | none =>
      let p := genLoop decode cancelFrom (scanLines resp.body) 0
      ⟨p.1, p.2, setup.closes + 1⟩

/-- The decoder loop of `ChatStream` (api.go lines 124-145).  `tokens` models the
successive results of `json.Decoder.Decode` on the body: `some r` is a decoded
record, `none` a non-EOF decode error, and exhausting the list is `io.EOF` (normal
return).  The only `ctx.Done()` check is the publish `select`; there is no
decode-step cancellation check in `ChatStream`. -/
def chatLoop (cancelFrom : Option Nat) :
    List (Option ChatResponse) → Nat → List ChatResponse × Option StreamError
  | [], _ => ([], none)
  | none :: _, _ => ([], some .chatDecodeError)
  | some r :: rest, checks =>
    if ctxDone cancelFrom checks then ([], some .ctxError)
    else if r.done then ([r], none)
    else
      let p := chatLoop cancelFrom rest (checks + 1)
      (r :: p.1, p.2)

/-- Model of the goroutine of `Client.ChatStream` (api.go lines 103-149):
validate the model name, call `requestStream`, defer one `resp.Body.Close()`, and
run the `json.Decoder` loop, whose `Decode` outcomes on `resp.body` are the
abstract `tokens`. -/
def chatStreamRun (parseErr : String → Option String) (cancelFrom : Option Nat)
    (model : String) (resp : HttpResponse) (tokens : List (Option ChatResponse)) :
    SessionResult ChatResponse :=
  if model = "" then ⟨[], some (.requestError "model is required"), 0⟩
  else
    let setup := requestStream parseErr resp
    match setup.result with
    | some e => ⟨[], some e, setup.closes⟩
    | none =>
      let p := chatLoop cancelFrom tokens 0
      ⟨p.1, p.2, setup.closes + 1⟩

/-! ### Request values sent by Generate / GenerateStream / Chat / ChatStream -/

/-- The caller-visible fields of types.go `GenerateRequest` that matter here:
`Model`, the opaque rest of the payload (`prompt` stands for all other fields),
and `Stream`. -/
structure GenerateRequest where
  model : String
  prompt : String
  stream : Bool
deriving Repr, DecidableEq

/-- The caller-visible fields of types.go `ChatRequest` reduced the same way. -/
structure ChatRequest where
  model : String
  messages : List String
  stream : Bool
deriving Repr, DecidableEq

/-- The request value `Generate` (api.go lines 14-25) passes to `c.request`:
Go passes `req` by value, so `req.Stream = false` mutates the callee's copy; the
result is the value actually serialized onto the wire, `none` when validation
rejects the call before any I/O. -/
def generateSent (req : GenerateRequest) : Option GenerateRequest :=
  if req.model = "" then none else some { req with stream := false }

/-- The request value the goroutine of `GenerateStream` (api.go lines 36-42)
passes to `c.requestStream`. -/
def generateStreamSent (req : GenerateRequest) : Option GenerateRequest :=
  if req.model = "" then none else some { req with stream := true }

/-- The request value `Chat` (api.go lines 89-100) passes to `c.request`. -/
def chatSent (req : ChatRequest) : Option ChatRequest :=
  if req.model = "" then none else some { req with stream := false }

/-- The request value the goroutine of `ChatStream` (api.go lines 111-117) passes
to `c.requestStream`. -/
def chatStreamSent (req : ChatRequest) : Option ChatRequest :=
  if req.model = "" then none else some { req with stream := true }

/-! ### Spec-side framing (for the framing-selection claim) -/

/-- Modelled from the spec: the single-JSON-stream framing that, per the spec, a
session selects when the response `Content-Type` is `application/json` — "a
streaming JSON tokenizer that yields successive top-level values", each value
published in order until one carries `done=true` or the body is exhausted.
`tokens` is the tokenizer's output on the whole body. -/
def specSingleJsonGenRun :
    List (Option GenerateResponse) → List GenerateResponse × Option StreamError
  | [] => ([], none)
  | none :: _ => ([], some .chatDecodeError)
  | some r :: rest =>
    if r.done then ([r], none)
    else
      let p := specSingleJsonGenRun rest
      (r :: p.1, p.2)

/-! ### Concrete oracles used by the witnesses -/

/-- Concrete line decoder for witnesses: three well-formed records, all other
lines malformed. -/
def decodeDemo : String → Option GenerateResponse := fun s =>
  if s = "a" then some ⟨"a", false⟩
  else if s = "b" then some ⟨"b", true⟩
  else if s = "c" then some ⟨"c", false⟩
  else none

/-- Concrete error-body parser for witnesses: one body with a populated `error`
field, everything else not valid JSON. -/
def parseErrDemo : String → Option String := fun s =>
  if s = "errbody" then some "model not found" else none


/-! ### Loop lemmas -/

/-- When every non-blank line decodes and `done` is false everywhere except
possibly the last record, the scanner loop publishes exactly the records, in
order, and sends no error. -/
theorem genLoop_of_records (decode : String → Option GenerateResponse)
    (lines : List String) :
    ∀ (rs : List GenerateResponse) (checks : Nat),
      (lines.filter (fun l => !decide (l = ""))).map decode = rs.map some →
      (∀ r ∈ rs.dropLast, r.done = false) →
      genLoop decode none lines checks = (rs, none) := by
  induction lines with
  | nil =>
    intro rs checks h _
    have hrs : rs = [] := by cases rs <;> simp_all
    subst hrs
    simp [genLoop]
  | cons line rest ih =>
    intro rs checks h hmid
    by_cases hl : line = ""
    · subst hl
      simp only [List.filter_cons, decide_not] at h
      simp at h
      simp [genLoop, ctxDone]
      exact ih rs (checks + 1) h hmid
    · simp only [List.filter_cons] at h
      rw [if_pos (by simp [hl])] at h
      cases rs with
      | nil => simp at h
      | cons r rs₂ =>
        simp only [List.map_cons] at h
        injection h with hdl htail
        cases hd : r.done with
        | true =>
          have hrs₂ : rs₂ = [] := by
            by_contra hne
            have hmem : r ∈ (r :: rs₂).dropLast := by
              cases rs₂ with
              | nil => exact absurd rfl hne
              | cons b t => simp
            have := hmid r hmem
            rw [hd] at this
            exact Bool.noConfusion this
          subst hrs₂
          simp [genLoop, ctxDone, hl, hdl, hd]
        | false =>
          have hmid₂ : ∀ x ∈ rs₂.dropLast, x.done = false := by
            intro x hx
            apply hmid
            cases rs₂ with
            | nil => simp at hx
            | cons b t => simpa using Or.inr hx
          have ih' := ih rs₂ (checks + 2) htail hmid₂
          simp [genLoop, ctxDone, hl, hdl, hd, ih']

/-- When the non-blank lines are some well-decoded `done=false` records followed by
a malformed line, the scanner loop publishes exactly the preceding records and
sends the decode error for the malformed line. -/
theorem genLoop_decode_fail (decode : String → Option GenerateResponse)
    (lines : List String) :
    ∀ (good : List String) (rs : List GenerateResponse) (bad : String)
      (tail : List String) (checks : Nat),
      lines.filter (fun l => !decide (l = "")) = good ++ bad :: tail →
      good.map decode = rs.map some →
      decode bad = none →
      (∀ r ∈ rs, r.done = false) →
      genLoop decode none lines checks = (rs, some (.decodeError bad)) := by
  induction lines with
  | nil =>
    intro good rs bad tail checks h _ _ _
    simp at h
  | cons line rest ih =>
    intro good rs bad tail checks h hgood hbad hnd
    by_cases hl : line = ""
    · subst hl
      simp only [List.filter_cons, decide_not] at h
      simp at h
      simp [genLoop, ctxDone]
      exact ih good rs bad tail (checks + 1) h hgood hbad hnd
    · simp only [List.filter_cons] at h
      rw [if_pos (by simp [hl])] at h
      cases good with
      | nil =>
        simp at h
        obtain ⟨h1, _⟩ := h
        subst h1
        have hrs : rs = [] := by cases rs <;> simp_all
        subst hrs
        simp [genLoop, ctxDone, hl, hbad]
      | cons g good₂ =>
        simp at h
        obtain ⟨h1, h2⟩ := h
        subst h1
        cases rs with
        | nil => simp at hgood
        | cons r rs₂ =>
          simp only [List.map_cons] at hgood
          injection hgood with hdl htail
          have hdone := hnd r (by simp)
          have ih' := ih good₂ rs₂ bad tail (checks + 2) h2 htail hbad
            (fun x hx => hnd x (by simp [hx]))
          simp [genLoop, ctxDone, hl, hdl, hdone, ih']

/-- Cancellation becoming observable at the decode-step check of iteration `m`
(check number `checks + 2m`) stops the scanner loop after exactly `m` published
events, with the context's error. -/
theorem genLoop_cancel_even (decode : String → Option GenerateResponse)
    (lines : List String) :
    ∀ (rs : List GenerateResponse) (m checks : Nat),
      (∀ l ∈ lines, l ≠ "") →
      lines.map decode = rs.map some →
      (∀ r ∈ rs, r.done = false) →
      m < rs.length →
      genLoop decode (some (checks + 2 * m)) lines checks =
        (rs.take m, some .ctxError) := by
  induction lines with
  | nil =>
    intro rs m checks _ h _ hm
    have : rs = [] := by cases rs <;> simp_all
    subst this
    simp at hm
  | cons line rest ih =>
    intro rs m checks hnb h hnd hm
    cases rs with
    | nil => simp at hm
    | cons r rs₂ =>
      simp only [List.map_cons] at h
      injection h with hdl htail
      cases m with
      | zero => simp [genLoop, ctxDone]
      | succ m' =>
        have hl : line ≠ "" := hnb line (by simp)
        rw [show checks + 2 * (m' + 1) = checks + 2 + 2 * m' from by omega]
        have hA : ctxDone (some (checks + 2 + 2 * m')) checks = false := by
          simp [ctxDone]
          omega
        have hB : ctxDone (some (checks + 2 + 2 * m')) (checks + 1) = false := by
          simp [ctxDone]
          omega
        have hdone := hnd r (by simp)
        have ih' := ih rs₂ m' (checks + 2) (fun l hl' => hnb l (by simp [hl']))
          htail (fun x hx => hnd x (by simp [hx])) (by simpa using hm)
        simp [genLoop, hA, hB, hl, hdl, hdone, ih']

/-- Cancellation becoming observable at the publish-step check of iteration `m`
(check number `checks + 2m + 1`) also stops the scanner loop after exactly `m`
published events: the in-flight record `m+1` is decoded but superseded. -/
theorem genLoop_cancel_odd (decode : String → Option GenerateResponse)
    (lines : List String) :
    ∀ (rs : List GenerateResponse) (m checks : Nat),
      (∀ l ∈ lines, l ≠ "") →
      lines.map decode = rs.map some →
      (∀ r ∈ rs, r.done = false) →
      m < rs.length →
      genLoop decode (some (checks + 2 * m + 1)) lines checks =
        (rs.take m, some .ctxError) := by
  induction lines with
  | nil =>
    intro rs m checks _ h _ hm
    have : rs = [] := by cases rs <;> simp_all
    subst this
    simp at hm
  | cons line rest ih =>
    intro rs m checks hnb h hnd hm
    cases rs with
    | nil => simp at hm
    | cons r rs₂ =>
      simp only [List.map_cons] at h
      injection h with hdl htail
      have hl : line ≠ "" := hnb line (by simp)
      cases m with
      | zero =>
        have hA : ctxDone (some (checks + 2 * 0 + 1)) checks = false := by
          simp [ctxDone]
        have hB : ctxDone (some (checks + 2 * 0 + 1)) (checks + 1) = true := by
          simp [ctxDone]
        simp [genLoop, hA, hB, hl, hdl]
      | succ m' =>
        rw [show checks + 2 * (m' + 1) + 1 = checks + 2 + 2 * m' + 1 from by omega]
        have hA : ctxDone (some (checks + 2 + 2 * m' + 1)) checks = false := by
          simp [ctxDone]
          omega
        have hB : ctxDone (some (checks + 2 + 2 * m' + 1)) (checks + 1) = false := by
          simp [ctxDone]
          omega
        have hdone := hnd r (by simp)
        have ih' := ih rs₂ m' (checks + 2) (fun l hl' => hnb l (by simp [hl']))
          htail (fun x hx => hnd x (by simp [hx])) (by simpa using hm)
        simp [genLoop, hA, hB, hl, hdl, hdone, ih']


/-- When every `Decode` call yields a record and `done` is false everywhere except
possibly the last record, the chat decoder loop publishes exactly the records and
sends no error (`io.EOF` is a normal return). -/
theorem chatLoop_of_records :
    ∀ (rs : List ChatResponse) (checks : Nat),
      (∀ r ∈ rs.dropLast, r.done = false) →
      chatLoop none (rs.map some) checks = (rs, none) := by
  intro rs
  induction rs with
  | nil => intro checks _; simp [chatLoop]
  | cons r rs₂ ih =>
    intro checks hmid
    cases hd : r.done with
    | true =>
      have hrs₂ : rs₂ = [] := by
        by_contra hne
        have hmem : r ∈ (r :: rs₂).dropLast := by
          cases rs₂ with
          | nil => exact absurd rfl hne
          | cons b t => simp
        have := hmid r hmem
        rw [hd] at this
        exact Bool.noConfusion this
      subst hrs₂
      simp [chatLoop, ctxDone, hd]
    | false =>
      have hmid₂ : ∀ x ∈ rs₂.dropLast, x.done = false := by
        intro x hx
        apply hmid
        cases rs₂ with
        | nil => simp at hx
        | cons b t => simpa using Or.inr hx
      have ih' := ih (checks + 1) hmid₂
      simp [chatLoop, ctxDone, hd, ih']

/-- When `Decode` yields some `done=false` records and then fails (not `io.EOF`),
the chat decoder loop publishes exactly the preceding records and sends the decode
error. -/
theorem chatLoop_decode_fail :
    ∀ (rs : List ChatResponse) (tail : List (Option ChatResponse)) (checks : Nat),
      (∀ r ∈ rs, r.done = false) →
      chatLoop none (rs.map some ++ none :: tail) checks =
        (rs, some .chatDecodeError) := by
  intro rs
  induction rs with
  | nil => intro tail checks _; simp [chatLoop]
  | cons r rs₂ ih =>
    intro tail checks hnd
    have hdone := hnd r (by simp)
    have ih' := ih tail (checks + 1) (fun x hx => hnd x (by simp [hx]))
    simp [chatLoop, ctxDone, hdone, ih']

/-- Cancellation becoming observable at the publish-step check of iteration `m`
(check number `checks + m`, the only cancellation check ChatStream performs) stops
the chat decoder loop after exactly `m` published events, with the context's
error. -/
theorem chatLoop_cancel :
    ∀ (rs : List ChatResponse) (m checks : Nat),
      (∀ r ∈ rs, r.done = false) →
      m < rs.length →
      chatLoop (some (checks + m)) (rs.map some) checks =
        (rs.take m, some .ctxError) := by
  intro rs
  induction rs with
  | nil => intro m checks _ hm; simp at hm
  | cons r rs₂ ih =>
    intro m checks hnd hm
    cases m with
    | zero => simp [chatLoop, ctxDone]
    | succ m' =>
      have hA : ctxDone (some (checks + (m' + 1))) checks = false := by
        simp [ctxDone]
      have hdone := hnd r (by simp)
      rw [show checks + (m' + 1) = (checks + 1) + m' from by omega]
      have ih' := ih m' (checks + 1) (fun x hx => hnd x (by simp [hx]))
        (by simpa using hm)
      have hA' : ctxDone (some (checks + 1 + m')) checks = false := by
        simp [ctxDone]
        omega
      simp [chatLoop, hA', hdone, ih']

/-- A 200 response whose `Content-Type` contains one of the two accepted values
passes `requestStream` validation without closing the body. -/
theorem requestStream_ok (parseErr : String → Option String) (resp : HttpResponse)
    (hstatus : resp.statusCode = 200)
    (hct : strContains resp.contentType "application/json" = true ∨
           strContains resp.contentType "application/x-ndjson" = true) :
    requestStream parseErr resp = ⟨none, 0⟩ := by
  unfold requestStream
  rw [hstatus]
  rcases hct with h | h <;> simp [h]

/-- After a successful `requestStream`, the GenerateStream goroutine's outcome is
the scanner loop's outcome over the body's lines, plus the one deferred body
close. -/
theorem generateStreamRun_eq (parseErr : String → Option String)
    (decode : String → Option GenerateResponse) (cancelFrom : Option Nat)
    (model : String) (resp : HttpResponse)
    (hmodel : model ≠ "")
    (hsetup : requestStream parseErr resp = ⟨none, 0⟩) :
    generateStreamRun parseErr decode cancelFrom model resp =
      ⟨(genLoop decode cancelFrom (scanLines resp.body) 0).1,
       (genLoop decode cancelFrom (scanLines resp.body) 0).2, 1⟩ := by
  unfold generateStreamRun
  rw [if_neg hmodel, hsetup]

/-- After a successful `requestStream`, the ChatStream goroutine's outcome is the
decoder loop's outcome over the `Decode` token stream, plus the one deferred body
close. -/
theorem chatStreamRun_eq (parseErr : String → Option String)
    (cancelFrom : Option Nat) (model : String) (resp : HttpResponse)
    (tokens : List (Option ChatResponse))
    (hmodel : model ≠ "")
    (hsetup : requestStream parseErr resp = ⟨none, 0⟩) :
    chatStreamRun parseErr cancelFrom model resp tokens =
      ⟨(chatLoop cancelFrom tokens 0).1, (chatLoop cancelFrom tokens 0).2, 1⟩ := by
  unfold chatStreamRun
  rw [if_neg hmodel, hsetup]


/-! ### Claim theorems -/

/-- C1: for every valid NDJSON body with N records whose last record has done=true
and whose earlier records have done=false, GenerateStream (absent cancellation)
delivers exactly the N records on the response channel, in body order, skipping
blank lines, then stops with both channels closed and no error sent, zero events
after the done=true event, and the body closed exactly once. -/
theorem generateStream_ndjson_success
    (parseErr : String → Option String) (decode : String → Option GenerateResponse)
    (model : String) (resp : HttpResponse) (rs : List GenerateResponse)
    (rlast : GenerateResponse)
    (hmodel : model ≠ "")
    (hstatus : resp.statusCode = 200)
    (hct : strContains resp.contentType "application/x-ndjson" = true)
    (hdec : ((scanLines resp.body).filter (fun l => !decide (l = ""))).map decode =
      rs.map some)
    (hlast : rs.getLast? = some rlast)
    (hdone : rlast.done = true)
    (hmid : ∀ r ∈ rs.dropLast, r.done = false) :
    generateStreamRun parseErr decode none model resp = ⟨rs, none, 1⟩ := by
  rw [generateStreamRun_eq parseErr decode none model resp hmodel
    (requestStream_ok parseErr resp hstatus (Or.inr hct))]
  rw [genLoop_of_records decode (scanLines resp.body) rs 0 hdec hmid]

/-- Witness for C1 at a concrete body with a blank line. -/
theorem generateStream_ndjson_success_witness :
    generateStreamRun parseErrDemo decodeDemo none "llama"
      ⟨200, "application/x-ndjson", "a\n\nb"⟩ =
      ⟨[⟨"a", false⟩, ⟨"b", true⟩], none, 1⟩ :=
  generateStream_ndjson_success parseErrDemo decodeDemo "llama"
    ⟨200, "application/x-ndjson", "a\n\nb"⟩ [⟨"a", false⟩, ⟨"b", true⟩] ⟨"b", true⟩
    (by decide) rfl (by decide) (by decide) (by decide) (by decide) (by decide)

/-- C2: when the k-th record is malformed and records 1..k−1 are well-formed with
done=false, GenerateStream delivers exactly the k−1 preceding events and then a
decode-error terminal signal, no further events, and closes the body exactly once;
ChatStream behaves the same for its decoder's token stream. -/
theorem streams_decode_error_delivery
    (parseErr : String → Option String) (decode : String → Option GenerateResponse)
    (model : String)
    (resp₁ : HttpResponse) (good : List String) (rs : List GenerateResponse)
    (bad : String) (tail : List String)
    (resp₂ : HttpResponse) (crs : List ChatResponse)
    (ctail : List (Option ChatResponse))
    (hmodel : model ≠ "")
    (hstatus₁ : resp₁.statusCode = 200)
    (hct₁ : strContains resp₁.contentType "application/json" = true ∨
            strContains resp₁.contentType "application/x-ndjson" = true)
    (hsplit : (scanLines resp₁.body).filter (fun l => !decide (l = "")) =
      good ++ bad :: tail)
    (hgood : good.map decode = rs.map some)
    (hbad : decode bad = none)
    (hnd : ∀ r ∈ rs, r.done = false)
    (hstatus₂ : resp₂.statusCode = 200)
    (hct₂ : strContains resp₂.contentType "application/json" = true ∨
            strContains resp₂.contentType "application/x-ndjson" = true)
    (hnd₂ : ∀ r ∈ crs, r.done = false) :
    generateStreamRun parseErr decode none model resp₁ =
      ⟨rs, some (.decodeError bad), 1⟩ ∧
    chatStreamRun parseErr none model resp₂ (crs.map some ++ none :: ctail) =
      ⟨crs, some .chatDecodeError, 1⟩ := by
  constructor
  · rw [generateStreamRun_eq parseErr decode none model resp₁ hmodel
      (requestStream_ok parseErr resp₁ hstatus₁ hct₁)]
    rw [genLoop_decode_fail decode (scanLines resp₁.body) good rs bad tail 0
      hsplit hgood hbad hnd]
  · rw [chatStreamRun_eq parseErr none model resp₂ (crs.map some ++ none :: ctail)
      hmodel (requestStream_ok parseErr resp₂ hstatus₂ hct₂)]
    rw [chatLoop_decode_fail crs ctail 0 hnd₂]

/-- Witness for C2 at concrete bodies: one prior event for each operation, then a
malformed record. -/
theorem streams_decode_error_delivery_witness :
    generateStreamRun parseErrDemo decodeDemo none "llama"
      ⟨200, "application/x-ndjson", "a\nZZ\nb"⟩ =
      ⟨[⟨"a", false⟩], some (.decodeError "ZZ"), 1⟩ ∧
    chatStreamRun parseErrDemo none "llama" ⟨200, "application/json", "x"⟩
      [some ⟨"x", false⟩, none, some ⟨"y", false⟩] =
      ⟨[⟨"x", false⟩], some .chatDecodeError, 1⟩ :=
  streams_decode_error_delivery parseErrDemo decodeDemo "llama"
    ⟨200, "application/x-ndjson", "a\nZZ\nb"⟩ ["a"] [⟨"a", false⟩] "ZZ" ["b"]
    ⟨200, "application/json", "x"⟩ [⟨"x", false⟩] [some ⟨"y", false⟩]
    (by decide) rfl (Or.inr (by decide)) (by decide) (by decide) (by decide)
    (by decide) rfl (Or.inl (by decide)) (by decide)

/-- C3: a body that ends without any done=true record yields normal completion for
both streaming operations: every record is delivered in order and nothing is sent
on the error channel. -/
theorem streams_eof_completion
    (parseErr : String → Option String) (decode : String → Option GenerateResponse)
    (model : String)
    (resp₁ : HttpResponse) (rs : List GenerateResponse)
    (resp₂ : HttpResponse) (crs : List ChatResponse)
    (hmodel : model ≠ "")
    (hstatus₁ : resp₁.statusCode = 200)
    (hct₁ : strContains resp₁.contentType "application/json" = true ∨
            strContains resp₁.contentType "application/x-ndjson" = true)
    (hdec : ((scanLines resp₁.body).filter (fun l => !decide (l = ""))).map decode =
      rs.map some)
    (hnd : ∀ r ∈ rs, r.done = false)
    (hstatus₂ : resp₂.statusCode = 200)
    (hct₂ : strContains resp₂.contentType "application/json" = true ∨
            strContains resp₂.contentType "application/x-ndjson" = true)
    (hnd₂ : ∀ r ∈ crs, r.done = false) :
    generateStreamRun parseErr decode none model resp₁ = ⟨rs, none, 1⟩ ∧
    chatStreamRun parseErr none model resp₂ (crs.map some) = ⟨crs, none, 1⟩ := by
  constructor
  · rw [generateStreamRun_eq parseErr decode none model resp₁ hmodel
      (requestStream_ok parseErr resp₁ hstatus₁ hct₁)]
    rw [genLoop_of_records decode (scanLines resp₁.body) rs 0 hdec
      (fun r hr => hnd r ((List.dropLast_sublist rs).subset hr))]
  · rw [chatStreamRun_eq parseErr none model resp₂ (crs.map some) hmodel
      (requestStream_ok parseErr resp₂ hstatus₂ hct₂)]
    rw [chatLoop_of_records crs 0
      (fun r hr => hnd₂ r ((List.dropLast_sublist crs).subset hr))]

/-- Witness for C3 at concrete bodies with no done=true record. -/
theorem streams_eof_completion_witness :
    generateStreamRun parseErrDemo decodeDemo none "llama"
      ⟨200, "application/x-ndjson", "a\nc"⟩ =
      ⟨[⟨"a", false⟩, ⟨"c", false⟩], none, 1⟩ ∧
    chatStreamRun parseErrDemo none "llama" ⟨200, "application/json", "x"⟩
      [some ⟨"x", false⟩] = ⟨[⟨"x", false⟩], none, 1⟩ :=
  streams_eof_completion parseErrDemo decodeDemo "llama"
    ⟨200, "application/x-ndjson", "a\nc"⟩ [⟨"a", false⟩, ⟨"c", false⟩]
    ⟨200, "application/json", "x"⟩ [⟨"x", false⟩]
    (by decide) rfl (Or.inr (by decide)) (by decide) (by decide)
    rfl (Or.inl (by decide)) (by decide)


/-- C4 (counterexample): cancellation is NOT checked at each decode step in
ChatStream — with the context done from the very start (before any event, m = 0)
and a malformed first record, the run publishes the decode error, not the
context's Cancelled error, because the only cancellation check is the publish
step that is never reached. -/
theorem chatStream_no_decode_cancel_check_cx :
    chatStreamRun parseErrDemo (some 0) "llama"
      ⟨200, "application/x-ndjson", "z"⟩ [none] =
      ⟨[], some .chatDecodeError, 1⟩ ∧
    (chatStreamRun parseErrDemo (some 0) "llama"
      ⟨200, "application/x-ndjson", "z"⟩ [none]).err ≠ some .ctxError := by
  constructor
  · decide
  · decide

/-- C4 (amended): if cancellation is observed after m events (0 ≤ m < N), the
streaming operation delivers exactly m events, publishes the context's error,
delivers nothing afterwards, and closes the body exactly once; cancellation is
checked at each decode step and each publish step in GenerateStream (checks 2m and
2m+1 of iteration m), but only at each publish step (check m) in ChatStream. -/
theorem streams_cancellation_amended
    (parseErr : String → Option String) (decode : String → Option GenerateResponse)
    (model : String)
    (resp₁ : HttpResponse) (ls : List String) (rs : List GenerateResponse) (m : Nat)
    (resp₂ : HttpResponse) (crs : List ChatResponse) (m' : Nat)
    (hmodel : model ≠ "")
    (hstatus₁ : resp₁.statusCode = 200)
    (hct₁ : strContains resp₁.contentType "application/json" = true ∨
            strContains resp₁.contentType "application/x-ndjson" = true)
    (hlines : scanLines resp₁.body = ls)
    (hnb : ∀ l ∈ ls, l ≠ "")
    (hdec : ls.map decode = rs.map some)
    (hnd : ∀ r ∈ rs, r.done = false)
    (hm : m < rs.length)
    (hstatus₂ : resp₂.statusCode = 200)
    (hct₂ : strContains resp₂.contentType "application/json" = true ∨
            strContains resp₂.contentType "application/x-ndjson" = true)
    (hnd₂ : ∀ r ∈ crs, r.done = false)
    (hm' : m' < crs.length) :
    generateStreamRun parseErr decode (some (2 * m)) model resp₁ =
      ⟨rs.take m, some .ctxError, 1⟩ ∧
    generateStreamRun parseErr decode (some (2 * m + 1)) model resp₁ =
      ⟨rs.take m, some .ctxError, 1⟩ ∧
    chatStreamRun parseErr (some m') model resp₂ (crs.map some) =
      ⟨crs.take m', some .ctxError, 1⟩ := by
  refine ⟨?_, ?_, ?_⟩
  · rw [generateStreamRun_eq parseErr decode (some (2 * m)) model resp₁ hmodel
      (requestStream_ok parseErr resp₁ hstatus₁ hct₁), hlines]
    have h2 : genLoop decode (some (2 * m)) ls 0 = (rs.take m, some .ctxError) := by
      simpa using genLoop_cancel_even decode ls rs m 0 hnb hdec hnd hm
    rw [h2]
  · rw [generateStreamRun_eq parseErr decode (some (2 * m + 1)) model resp₁ hmodel
      (requestStream_ok parseErr resp₁ hstatus₁ hct₁), hlines]
    have h2 : genLoop decode (some (2 * m + 1)) ls 0 = (rs.take m, some .ctxError) := by
      simpa using genLoop_cancel_odd decode ls rs m 0 hnb hdec hnd hm
    rw [h2]
  · rw [chatStreamRun_eq parseErr (some m') model resp₂ (crs.map some) hmodel
      (requestStream_ok parseErr resp₂ hstatus₂ hct₂)]
    have h2 : chatLoop (some m') (crs.map some) 0 = (crs.take m', some .ctxError) := by
      simpa using chatLoop_cancel crs m' 0 hnd₂ hm'
    rw [h2]

/-- Witness for the amended C4 at concrete two-record bodies with m = 1. -/
theorem streams_cancellation_amended_witness :
    generateStreamRun parseErrDemo decodeDemo (some 2) "llama"
      ⟨200, "application/x-ndjson", "a\nc"⟩ =
      ⟨[⟨"a", false⟩], some .ctxError, 1⟩ ∧
    generateStreamRun parseErrDemo decodeDemo (some 3) "llama"
      ⟨200, "application/x-ndjson", "a\nc"⟩ =
      ⟨[⟨"a", false⟩], some .ctxError, 1⟩ ∧
    chatStreamRun parseErrDemo (some 1) "llama" ⟨200, "application/json", "x"⟩
      [some ⟨"x", false⟩, some ⟨"y", false⟩] =
      ⟨[⟨"x", false⟩], some .ctxError, 1⟩ :=
  streams_cancellation_amended parseErrDemo decodeDemo "llama"
    ⟨200, "application/x-ndjson", "a\nc"⟩ ["a", "c"]
    [⟨"a", false⟩, ⟨"c", false⟩] 1
    ⟨200, "application/json", "x"⟩ [⟨"x", false⟩, ⟨"y", false⟩] 1
    (by decide) rfl (Or.inr (by decide)) (by decide) (by decide) (by decide)
    (by decide) (by decide) rfl (Or.inl (by decide)) (by decide) (by decide)


/-- C5 (counterexample): 201 lies in the 2xx success range, yet `request` treats it
as a failure and returns a ResponseError with the raw body as message — the
success check is status = 200 exactly, not the 2xx range. -/
theorem request_2xx_responseError_cx :
    request parseErrDemo true true ⟨201, "application/json", "oops"⟩ =
      some (.responseError 201 "oops") ∧
    optIsRespErr (request parseErrDemo true true
      ⟨201, "application/json", "oops"⟩) = true ∧
    200 ≤ 201 ∧ 201 < 300 := by
  refine ⟨by decide, by decide, by decide, by decide⟩

/-- C5 (amended): for every response whose status differs from 200, `request` and
`requestStream` return a ResponseError carrying the status code and, when the body
parses as a JSON object with a non-empty error field, that field's value as the
message, otherwise (parse failure or empty field) the raw body text; for status
exactly 200 neither returns a ResponseError. -/
theorem request_error_extraction_amended
    (parseErr : String → Option String) (decodeOk hasResponse : Bool)
    (resp : HttpResponse) (em : String) :
    (resp.statusCode ≠ 200 → parseErr resp.body = some em → em ≠ "" →
      request parseErr decodeOk hasResponse resp =
        some (.responseError resp.statusCode em) ∧
      (requestStream parseErr resp).result =
        some (.responseError resp.statusCode em)) ∧
    (resp.statusCode ≠ 200 → parseErr resp.body = none →
      request parseErr decodeOk hasResponse resp =
        some (.responseError resp.statusCode resp.body) ∧
      (requestStream parseErr resp).result =
        some (.responseError resp.statusCode resp.body)) ∧
    (resp.statusCode ≠ 200 → parseErr resp.body = some "" →
      request parseErr decodeOk hasResponse resp =
        some (.responseError resp.statusCode resp.body) ∧
      (requestStream parseErr resp).result =
        some (.responseError resp.statusCode resp.body)) ∧
    (resp.statusCode = 200 →
      optIsRespErr (request parseErr decodeOk hasResponse resp) = false ∧
      optIsRespErr (requestStream parseErr resp).result = false) := by
  refine ⟨?_, ?_, ?_, ?_⟩
  · intro hs hp hne
    unfold request requestStream
    simp [hs, hp, hne]
  · intro hs hp
    unfold request requestStream
    simp [hs, hp]
  · intro hs hp
    unfold request requestStream
    simp [hs, hp]
  · intro hs
    unfold request requestStream
    constructor
    · simp only [hs]
      cases hasResponse <;> cases decodeOk <;>
        simp [optIsRespErr, StreamError.isRespErr]
    · simp only [hs]
      simp only [ne_eq, not_true_eq_false, if_false]
      split <;> simp [optIsRespErr, StreamError.isRespErr]

/-- Witness for the amended C5: a 404 with a parseable error body, a 404 with an
unparseable body, and a 200. -/
theorem request_error_extraction_amended_witness :
    (request parseErrDemo true true ⟨404, "application/json", "errbody"⟩ =
      some (.responseError 404 "model not found") ∧
     (requestStream parseErrDemo ⟨404, "application/json", "errbody"⟩).result =
      some (.responseError 404 "model not found")) ∧
    (request parseErrDemo true true ⟨500, "application/json", "boom"⟩ =
      some (.responseError 500 "boom") ∧
     (requestStream parseErrDemo ⟨500, "application/json", "boom"⟩).result =
      some (.responseError 500 "boom")) ∧
    (optIsRespErr (request parseErrDemo true true
      ⟨200, "application/json", "ok"⟩) = false ∧
     optIsRespErr (requestStream parseErrDemo
      ⟨200, "application/json", "ok"⟩).result = false) :=
  ⟨(request_error_extraction_amended parseErrDemo true true
      ⟨404, "application/json", "errbody"⟩ "model not found").1
      (by decide) (by decide) (by decide),
   (request_error_extraction_amended parseErrDemo true true
      ⟨500, "application/json", "boom"⟩ "").2.1
      (by decide) (by decide),
   (request_error_extraction_amended parseErrDemo true true
      ⟨200, "application/json", "ok"⟩ "").2.2.2 rfl⟩

/-- C6 (counterexample): a 200 response with Content-Type text/plain makes
`requestStream` fail with the untyped unexpected-content-type error, which is not
a ResponseError as the claim states. -/
theorem requestStream_content_type_plain_error_cx :
    (requestStream parseErrDemo ⟨200, "text/plain", "b"⟩).result =
      some (.contentTypeError "text/plain") ∧
    optIsRespErr (requestStream parseErrDemo ⟨200, "text/plain", "b"⟩).result =
      false := by
  refine ⟨by decide, by decide⟩

/-- C6 (amended): for every 200 streaming response whose Content-Type contains
neither accepted value, `requestStream` fails the session with the untyped
unexpected-content-type error (not a typed ResponseError); when the Content-Type
contains either accepted value it does not fail on content type. -/
theorem requestStream_content_type_amended
    (parseErr : String → Option String) (resp : HttpResponse)
    (hstatus : resp.statusCode = 200) :
    (strContains resp.contentType "application/json" = false →
     strContains resp.contentType "application/x-ndjson" = false →
       (requestStream parseErr resp).result =
         some (.contentTypeError resp.contentType) ∧
       optIsRespErr (requestStream parseErr resp).result = false) ∧
    (strContains resp.contentType "application/json" = true ∨
     strContains resp.contentType "application/x-ndjson" = true →
       (requestStream parseErr resp).result = none) := by
  constructor
  · intro h1 h2
    unfold requestStream
    simp [hstatus, h1, h2, optIsRespErr, StreamError.isRespErr]
  · intro h
    rw [requestStream_ok parseErr resp hstatus h]

/-- Witness for the amended C6: an unsupported and a supported content type. -/
theorem requestStream_content_type_amended_witness :
    ((requestStream parseErrDemo ⟨200, "text/html", "b"⟩).result =
       some (.contentTypeError "text/html") ∧
     optIsRespErr (requestStream parseErrDemo ⟨200, "text/html", "b"⟩).result =
       false) ∧
    (requestStream parseErrDemo ⟨200, "application/x-ndjson", "b"⟩).result = none :=
  ⟨(requestStream_content_type_amended parseErrDemo ⟨200, "text/html", "b"⟩
      rfl).1 (by decide) (by decide),
   (requestStream_content_type_amended parseErrDemo
      ⟨200, "application/x-ndjson", "b"⟩ rfl).2 (Or.inr (by decide))⟩

/-- C9: on the unsupported-content-type exit path the response body is never
closed — `requestStream` returns the error with zero Close calls, so the session
does not release the body exactly once on every exit path. -/
theorem requestStream_body_leak :
    (requestStream parseErrDemo ⟨200, "text/plain", "x"⟩).closes = 0 ∧
    (requestStream parseErrDemo ⟨200, "text/plain", "x"⟩).result =
      some (.contentTypeError "text/plain") := by
  refine ⟨by decide, by decide⟩

/-- C10: Generate and Chat always send the request with Stream forced to false,
GenerateStream and ChatStream with Stream forced to true, whatever Stream value
the caller supplied; Go passes the request struct by value, so the override
happens on the callee's copy and every other field of the sent value equals the
caller's. -/
theorem sent_stream_flags (greq : GenerateRequest) (creq : ChatRequest)
    (hg : greq.model ≠ "") (hc : creq.model ≠ "") :
    generateSent greq = some { greq with stream := false } ∧
    generateStreamSent greq = some { greq with stream := true } ∧
    chatSent creq = some { creq with stream := false } ∧
    chatStreamSent creq = some { creq with stream := true } := by
  refine ⟨?_, ?_, ?_, ?_⟩ <;>
    simp [generateSent, generateStreamSent, chatSent, chatStreamSent, hg, hc]

/-- Witness for C10 at concrete requests whose caller-supplied Stream values are
the opposite of what is sent. -/
theorem sent_stream_flags_witness :
    generateSent ⟨"llama", "hi", true⟩ = some ⟨"llama", "hi", false⟩ ∧
    generateStreamSent ⟨"llama", "hi", false⟩ = some ⟨"llama", "hi", true⟩ ∧
    chatSent ⟨"llama", ["hi"], true⟩ = some ⟨"llama", ["hi"], false⟩ ∧
    chatStreamSent ⟨"llama", ["hi"], false⟩ = some ⟨"llama", ["hi"], true⟩ :=
  ⟨(sent_stream_flags ⟨"llama", "hi", true⟩ ⟨"llama", ["hi"], true⟩
      (by decide) (by decide)).1,
   (sent_stream_flags ⟨"llama", "hi", false⟩ ⟨"llama", ["hi"], false⟩
      (by decide) (by decide)).2.1,
   (sent_stream_flags ⟨"llama", "hi", true⟩ ⟨"llama", ["hi"], true⟩
      (by decide) (by decide)).2.2.1,
   (sent_stream_flags ⟨"llama", "hi", false⟩ ⟨"llama", ["hi"], false⟩
      (by decide) (by decide)).2.2.2⟩


/-- C7 (counterexample): framing is not selected from the response content type.
With Content-Type application/json and a body that is one JSON object split over
two lines, the claim's single-JSON-stream framing yields the object's one record
and success, but GenerateStream still line-frames the body and fails decoding the
first line. -/
theorem generateStream_framing_cx :
    generateStreamRun parseErrDemo decodeDemo none "llama"
      ⟨200, "application/json", "\x7b\n\x22done\x22: true\x7d"⟩ =
      ⟨[], some (.decodeError "\x7b"), 1⟩ ∧
    specSingleJsonGenRun [some ⟨"", true⟩] = ([⟨"", true⟩], none) ∧
    (generateStreamRun parseErrDemo decodeDemo none "llama"
      ⟨200, "application/json", "\x7b\n\x22done\x22: true\x7d"⟩).events ≠
      (specSingleJsonGenRun [some ⟨"", true⟩]).1 := by
  refine ⟨by decide, by decide, by decide⟩

/-- C7 (amended): each streaming operation's framing is fixed in its code, not
selected from the response content-type metadata — GenerateStream always
line-frames with the scanner and ChatStream always uses the streaming JSON
decoder, so for either operation the run is identical under Content-Type
application/x-ndjson and application/json; the content type is only validated to
be one of the two. -/
theorem stream_framing_fixed_amended
    (parseErr : String → Option String) (decode : String → Option GenerateResponse)
    (cancelFrom : Option Nat) (model : String) (body : String)
    (tokens : List (Option ChatResponse)) :
    generateStreamRun parseErr decode cancelFrom model
      ⟨200, "application/x-ndjson", body⟩ =
    generateStreamRun parseErr decode cancelFrom model
      ⟨200, "application/json", body⟩ ∧
    chatStreamRun parseErr cancelFrom model
      ⟨200, "application/x-ndjson", body⟩ tokens =
    chatStreamRun parseErr cancelFrom model
      ⟨200, "application/json", body⟩ tokens := by
  constructor
  · by_cases hm : model = ""
    · simp [generateStreamRun, hm]
    · rw [generateStreamRun_eq parseErr decode cancelFrom model
        ⟨200, "application/x-ndjson", body⟩ hm
        (requestStream_ok parseErr ⟨200, "application/x-ndjson", body⟩ rfl
          (Or.inr rfl)),
        generateStreamRun_eq parseErr decode cancelFrom model
        ⟨200, "application/json", body⟩ hm
        (requestStream_ok parseErr ⟨200, "application/json", body⟩ rfl
          (Or.inl rfl))]
  · by_cases hm : model = ""
    · simp [chatStreamRun, hm]
    · rw [chatStreamRun_eq parseErr cancelFrom model
        ⟨200, "application/x-ndjson", body⟩ tokens hm
        (requestStream_ok parseErr ⟨200, "application/x-ndjson", body⟩ rfl
          (Or.inr rfl)),
        chatStreamRun_eq parseErr cancelFrom model
        ⟨200, "application/json", body⟩ tokens hm
        (requestStream_ok parseErr ⟨200, "application/json", body⟩ rfl
          (Or.inl rfl))]


/-- A string whose last character is not a slash is unchanged by `TrimSuffix`. -/
theorem trimOneSlash_of_last_ne (t : String) (h : t.data.getLast? ≠ some '/') :
    trimOneSlash t = t := by
  unfold trimOneSlash
  rw [if_neg h]

/-- Trimming one slash from a string that does not end in two slashes leaves no
trailing slash. -/
theorem trimOneSlash_lastChar (t : String) (h : endsTwoSlash t = false) :
    (trimOneSlash t).data.getLast? ≠ some '/' := by
  unfold trimOneSlash
  by_cases hl : t.data.getLast? = some '/'
  · rw [if_pos hl]
    unfold endsTwoSlash at h
    rw [hl] at h
    simp at h
    simpa using h
  · rw [if_neg hl]
    exact hl

/-- Prefixing `http://` preserves not-ending-in-two-slashes, except for the single
input `/`, whose prefixed form is `http:///`. -/
theorem endsTwoSlash_withScheme (s : String) (h0 : s ≠ "")
    (h2 : endsTwoSlash s = false) :
    endsTwoSlash (withScheme s) = false ∨ withScheme s = "http:///" := by
  unfold withScheme
  by_cases hc : (!strHasPre s "http://" && !strHasPre s "https://") = true
  · rw [if_pos hc]
    obtain ⟨d⟩ := s
    cases d with
    | nil => exact absurd (by decide) h0
    | cons c₁ d₂ =>
      cases d₂ with
      | nil =>
        by_cases hcs : c₁ = '/'
        · subst hcs
          right
          decide
        · left
          have hlast : ("http://" ++ (⟨[c₁]⟩ : String)).data.getLast? = some c₁ := by
            rw [String.data_append]
            exact List.getLast?_append_of_ne_nil _ (List.cons_ne_nil c₁ [])
          unfold endsTwoSlash
          rw [hlast]
          simp [hcs]
      | cons c₂ tl =>
        left
        unfold endsTwoSlash at h2 ⊢
        rw [String.data_append]
        have hne : (c₁ :: c₂ :: tl) ≠ ([] : List Char) := by simp
        have hdl : (c₁ :: c₂ :: tl).dropLast ≠ ([] : List Char) := by
          simp [List.dropLast]
        rw [List.getLast?_append_of_ne_nil _ hne,
            List.dropLast_append_of_ne_nil _ hne,
            List.getLast?_append_of_ne_nil _ hdl]
        exact h2
  · rw [if_neg hc]
    left
    exact h2

/-- After the scheme-prefixing step, the port-defaulting and trimming steps leave
no trailing slash, provided the prefixed host does not end in two slashes (the one
exception `http:///` gets a port appended and is also safe). -/
theorem parseHostStep_no_trailing (host1 : String)
    (h : endsTwoSlash host1 = false ∨ host1 = "http:///") :
    (parseHostStep host1).data.getLast? ≠ some '/' := by
  rcases h with h | h
  · unfold parseHostStep
    rcases hu : urlParse host1 with _ | u
    · simp only [hu]
      decide
    · simp only [hu]
      by_cases hport : u.port = ""
      · rw [if_pos hport]
        by_cases hsch : u.scheme = "https"
        · rw [if_pos hsch]
          have h443 : (host1 ++ ":443").data.getLast? = some '3' := by
            rw [String.data_append, List.getLast?_append_of_ne_nil _ (by decide)]
            decide
          rw [trimOneSlash_of_last_ne _ (by rw [h443]; decide), h443]
          decide
        · rw [if_neg hsch]
          by_cases hsch2 : u.scheme = "http"
          · rw [if_pos hsch2]
            cases hcol : strContains (strDropN host1 7) ":" with
            | false =>
              simp only [hcol, Bool.not_false, if_true]
              have h114 : (host1 ++ ":11434").data.getLast? = some '4' := by
                rw [String.data_append, List.getLast?_append_of_ne_nil _ (by decide)]
                decide
              rw [trimOneSlash_of_last_ne _ (by rw [h114]; decide), h114]
              decide
            | true =>
              simp only [hcol, Bool.not_true]
              rw [if_neg (by simp)]
              exact trimOneSlash_lastChar host1 h
          · rw [if_neg hsch2]
            exact trimOneSlash_lastChar host1 h
      · rw [if_neg hport]
        exact trimOneSlash_lastChar host1 h
  · subst h
    decide

/-- For every input that does not end in two consecutive slashes, `parseHost`
yields no trailing slash. -/
theorem parseHost_lastChar (s : String) (h2 : endsTwoSlash s = false) :
    (parseHost s).data.getLast? ≠ some '/' := by
  unfold parseHost
  by_cases h0 : s = ""
  · rw [if_pos h0]
    decide
  · rw [if_neg h0]
    exact parseHostStep_no_trailing _ (endsTwoSlash_withScheme s h0 h2)

/-- C8 (counterexample): `TrimSuffix` strips only one slash, so an input ending in
two slashes yields a result that still ends in a trailing slash, contradicting
"for every input the result never ends in a trailing slash". -/
theorem parseHost_double_slash_cx :
    parseHost "http://example.com:11434//" = "http://example.com:11434/" ∧
    (parseHost "http://example.com:11434//").data.getLast? = some '/' := by
  refine ⟨by decide, by decide⟩

/-- C8 (amended): the empty host maps to http://127.0.0.1:11434, example.com to
http://example.com:11434, https://example.com to https://example.com:443, and for
every input not ending in two consecutive slashes the result has no trailing slash
(exactly one trailing slash is stripped). -/
theorem parseHost_resolution_amended :
    parseHost "" = "http://127.0.0.1:11434" ∧
    parseHost "example.com" = "http://example.com:11434" ∧
    parseHost "https://example.com" = "https://example.com:443" ∧
    ∀ s : String, endsTwoSlash s = false →
      (parseHost s).data.getLast? ≠ some '/' :=
  ⟨by decide, by decide, by decide, fun s h => parseHost_lastChar s h⟩

/-- Witness for the amended C8 at an input with a single trailing slash. -/
theorem parseHost_resolution_amended_witness :
    endsTwoSlash "example.com/" = false ∧
    (parseHost "example.com/").data.getLast? ≠ some '/' :=
  ⟨by decide, parseHost_resolution_amended.2.2.2 "example.com/" (by decide)⟩

end Ollamago
